import Mathlib

/-!
Shallow embedding of the story-generation core of app.py
(Web-Based Multilingual Image Story Generator).

The program is a single Streamlit script.  Its functional core is:

* module-level configuration: api_key read from st.secrets, and
  genai.configure(api_key) exactly when the key is truthy;
* get_story_model, memoized process-wide by st.cache_resource;
* generate_story_from_image(image_bytes, language): builds a fixed
  prompt, decodes the bytes with PIL, issues one model.generate_content
  call with a 120 second timeout, and returns response.text.strip();
* the right-panel UI block: a Generate button that is disabled unless
  an upload and a truthy api_key are both present, a warning when the
  key is missing, and a dispatch guard
  if generate_clicked and uploaded_file is not None and api_key.

The external world (PIL decoding, the remote Gemini model) is a
parameter Env; process-wide mutable state (the cache_resource memo and
a log of transport calls) is threaded explicitly as ProcState.
-/

/-- Raw image bytes (Python bytes), as a list of byte values. -/
abbrev Bytes := List Nat

/-- An in-memory decoded image object (the PIL Image returned by
Image.open on the given bytes). -/
structure PILImg where
  data : Bytes
deriving DecidableEq, Repr

/-- The model handle built by genai.GenerativeModel(name). -/
structure GenerativeModel where
  name : String
deriving DecidableEq, Repr

/-- One attempted call to model.generate_content: the model it was
issued on, the two members of the combined input list [prompt, img],
and the request_options timeout. -/
structure TransportCall where
  modelName : String
  prompt : String
  img : PILImg
  timeout : Nat
deriving DecidableEq, Repr

/-- Exceptions that can propagate out of generate_story_from_image.
unidentifiedImage is the PIL.UnidentifiedImageError raised by
Image.open on undecodable bytes; genaiError covers errors raised by
model.generate_content or response.text (network, timeout, model or
client failures), carrying the underlying cause.  keyError is the
KeyError a dict subscript raises on a missing key. -/
inductive PyError where
  | unidentifiedImage
  | genaiError (cause : String)
  | keyError
deriving DecidableEq, Repr

/-- Process-wide mutable state: the st.cache_resource memo of
get_story_model, how many times the handle was constructed, and the
log of transport calls issued so far. -/
structure ProcState where
  cachedModel : Option GenerativeModel
  constructions : Nat
  calls : List TransportCall
deriving DecidableEq, Repr

/-- Fresh process: nothing cached, nothing constructed, no calls. -/
def ProcState.init : ProcState := ⟨none, 0, []⟩

/-- The external world: how PIL decodes bytes (none models the raised
UnidentifiedImageError) and how the remote model answers a transport
call.  respond receives whether genai.configure was executed with a
key, and yields either the response text or the cause of a raised
error. -/
structure Env where
  decode : Bytes → Option PILImg
  respond : Bool → TransportCall → Except String String

/-- Python truthiness of the optional api_key string: None and the
empty string are falsy.  Used by the module-level configure guard, the
warning condition and the button guards. -/
def truthy : Option String → Bool
  | none => false
  | some s => !(s == "")

/-- Module-level api_key = st.secrets.get("GEMINI_API_KEY", None),
with st.secrets modeled as an association list. -/
def api_key (secrets : List (String × String)) : Option String :=
  (secrets.find? (fun p => p.1 == "GEMINI_API_KEY")).map (fun p => p.2)

/-- Module level: genai.configure(api_key) runs iff the key is truthy;
the resulting global genai configuration state. -/
def genai_configured (secrets : List (String × String)) : Bool :=
  truthy (api_key secrets)

/-- get_story_model under st.cache_resource: on a memo hit return the
cached handle unchanged, otherwise construct
genai.GenerativeModel("gemini-1.5-flash"), memoize it and count the
construction. -/
def get_story_model (s : ProcState) : GenerativeModel × ProcState :=
  match s.cachedModel with
  | some m => (m, s)
  | none =>
      let m : GenerativeModel := ⟨"gemini-1.5-flash"⟩
      (m, { s with cachedModel := some m, constructions := s.constructions + 1 })

/-- The prompt literal of generate_story_from_image: four adjacent
string pieces, the third an f-string interpolating language. -/
def storyPrompt (language : String) : String :=
  "You are an imaginative storyteller. " ++
  "Look at the image and write a short, vivid narrative (about 3–5 paragraphs). " ++
  ("Write the story entirely in " ++ language ++ ". ") ++
  "Do not describe the task, only tell the story."

/-- Python str.strip(): leading and trailing whitespace removed. -/
def pyStrip (s : String) : String :=
  String.mk (((s.toList.dropWhile Char.isWhitespace).reverse.dropWhile
    Char.isWhitespace).reverse)

/-- generate_story_from_image(image_bytes, language):
model = get_story_model(); build the prompt;
img = Image.open(io.BytesIO(image_bytes)) (raises on undecodable
bytes, before any transport call); then one
model.generate_content([prompt, img], request_options={"timeout": 120})
call, logged in the state; finally response.text.strip().  The
configured flag is the global genai configuration; the function never
reads api_key itself. -/
def generate_story_from_image (env : Env) (configured : Bool) (s : ProcState)
    (image_bytes : Bytes) (language : String) :
    Except PyError String × ProcState :=
  let ms := get_story_model s
  let prompt := storyPrompt language
  match env.decode image_bytes with
  | none => (Except.error PyError.unidentifiedImage, ms.2)
  | some img =>
      let call : TransportCall := ⟨ms.1.name, prompt, img, 120⟩
      let s2 : ProcState := { ms.2 with calls := ms.2.calls ++ [call] }
      match env.respond configured call with
      | Except.error cause => (Except.error (PyError.genaiError cause), s2)
      | Except.ok text => (Except.ok (pyStrip text), s2)

/-- The language pills offered by the radio control. -/
def lang_tabs : List String := ["English", "Amharic", "Chinese"]

/-- The lang_map dict; subscripting a missing key raises KeyError,
so lookup yields an Option. -/
def lang_map (l : String) : Option String :=
  ([("English", "English"), ("Amharic", "Amharic"), ("Chinese", "Chinese")].find?
    (fun p => p.1 == l)).map (fun p => p.2)

/-- What the right panel rendered into story_placeholder. -/
inductive Rendered where
  | story (language : String) (text : String)
  | placeholder
deriving DecidableEq, Repr

/-- Observable outcome of one run of the generate section. -/
structure UIOutcome where
  buttonDisabled : Bool
  warningShown : Bool
  rendered : Rendered
  procState : ProcState
deriving DecidableEq, Repr

/-- The right-panel generate section (app.py lines 212 to 245):
the button with disabled = uploaded_file is None or not api_key, the
warning shown iff not api_key, and the dispatch guard
if generate_clicked and uploaded_file is not None and api_key, which
alone can reach generate_story_from_image.  An exception from the
dispatch crashes the script run (Except.error). -/
def uiGenerateSection (env : Env) (key : Option String) (s : ProcState)
    (uploaded_file : Option Bytes) (selected_lang : String)
    (generate_clicked : Bool) : Except PyError UIOutcome :=
  let disabled := uploaded_file.isNone || !(truthy key)
  let warn := !(truthy key)
  if generate_clicked && truthy key then
    match uploaded_file with
    | some file =>
        match lang_map selected_lang with
        | none => Except.error PyError.keyError
        | some mapped =>
            let r := generate_story_from_image env (truthy key) s file mapped
            match r.1 with
            | Except.error e => Except.error e
            | Except.ok text =>
                Except.ok ⟨disabled, warn, Rendered.story selected_lang text, r.2⟩
    | none => Except.ok ⟨disabled, warn, Rendered.placeholder, s⟩
  else
    Except.ok ⟨disabled, warn, Rendered.placeholder, s⟩

/-- Run a sequence of (image bytes, language) requests through
generate_story_from_image, threading the process state. -/
def runRequests (env : Env) (configured : Bool) :
    ProcState → List (Bytes × String) → ProcState
  | s, [] => s
  | s, (b, l) :: rest =>
      runRequests env configured (generate_story_from_image env configured s b l).2 rest

/-- A transport stub that decodes every byte string and always answers
with the fixed text t. -/
def envOk (t : String) : Env :=
  { decode := fun b => some ⟨b⟩, respond := fun _ _ => Except.ok t }

/-- A transport stub that decodes every byte string and raises cause
on every call. -/
def envRaise (cause : String) : Env :=
  { decode := fun b => some ⟨b⟩, respond := fun _ _ => Except.error cause }

/-- A world in which no byte string decodes as an image. -/
def envNoDecode : Env :=
  { decode := fun _ => none, respond := fun _ _ => Except.ok "unreachable" }

/-- A realistic keyless world: the client library fails every call
made without genai.configure having run. -/
def envKeyless : Env :=
  { decode := fun b => some ⟨b⟩,
    respond := fun configured _ =>
      if configured then Except.ok "A story." else Except.error "No API key configured" }

/-- The byte signature of a 1 by 1 PNG upload used in scenarios. -/
def png1x1 : Bytes := [137, 80, 78, 71, 13, 10, 26, 10]

/-- The fixed text standing before the interpolated language in the
prompt template. -/
def promptHead : String :=
  "You are an imaginative storyteller. Look at the image and write a short, vivid narrative (about 3–5 paragraphs). Write the story entirely in "

/-- The fixed text standing after the interpolated language in the
prompt template. -/
def promptTail : String := ". Do not describe the task, only tell the story."

/-- The prompts of the transport calls issued so far, in order. -/
def promptsOf (s : ProcState) : List String := s.calls.map TransportCall.prompt

theorem storyPrompt_eq (language : String) :
    storyPrompt language = promptHead ++ language ++ promptTail := by
  unfold storyPrompt promptHead promptTail
  simp [String.append_assoc]
  rw [← String.append_assoc]
  rfl

theorem get_story_model_hit (s : ProcState) (m : GenerativeModel)
    (h : s.cachedModel = some m) : get_story_model s = (m, s) := by
  simp [get_story_model, h]

theorem get_story_model_state_calls (s : ProcState) :
    (get_story_model s).2.calls = s.calls := by
  rcases h : s.cachedModel with _ | m <;> simp [get_story_model, h]

theorem gen_calls_some (env : Env) (cfg : Bool) (s : ProcState) (b : Bytes)
    (lang : String) (img : PILImg) (h : env.decode b = some img) :
    (generate_story_from_image env cfg s b lang).2.calls =
      s.calls ++ [⟨(get_story_model s).1.name, storyPrompt lang, img, 120⟩] := by
  unfold generate_story_from_image
  rcases hr : env.respond cfg ⟨(get_story_model s).1.name, storyPrompt lang, img, 120⟩
    with cause | text <;>
  simp [h, hr, get_story_model_state_calls]

theorem gen_result_ok (env : Env) (cfg : Bool) (s : ProcState) (b : Bytes)
    (lang : String) (img : PILImg) (text : String) (h : env.decode b = some img)
    (hr : env.respond cfg ⟨(get_story_model s).1.name, storyPrompt lang, img, 120⟩ =
      Except.ok text) :
    (generate_story_from_image env cfg s b lang).1 = Except.ok (pyStrip text) := by
  unfold generate_story_from_image
  simp [h, hr]

theorem gen_result_err (env : Env) (cfg : Bool) (s : ProcState) (b : Bytes)
    (lang : String) (img : PILImg) (cause : String) (h : env.decode b = some img)
    (hr : env.respond cfg ⟨(get_story_model s).1.name, storyPrompt lang, img, 120⟩ =
      Except.error cause) :
    (generate_story_from_image env cfg s b lang).1 =
      Except.error (PyError.genaiError cause) := by
  unfold generate_story_from_image
  simp [h, hr]

theorem gen_state_cache (env : Env) (cfg : Bool) (s : ProcState) (b : Bytes)
    (lang : String) :
    (generate_story_from_image env cfg s b lang).2.cachedModel =
      (get_story_model s).2.cachedModel ∧
    (generate_story_from_image env cfg s b lang).2.constructions =
      (get_story_model s).2.constructions := by
  unfold generate_story_from_image
  rcases hd : env.decode b with _ | img
  · simp
  · rcases hr : env.respond cfg ⟨(get_story_model s).1.name, storyPrompt lang, img, 120⟩
      with cause | text <;>
    simp [hr]

/-- Invariant of the cache_resource memo: the handle was constructed
at most once, and not at all while the memo is still empty. -/
def cacheInv (s : ProcState) : Prop :=
  s.constructions ≤ 1 ∧ (s.cachedModel = none → s.constructions = 0)

theorem get_story_model_cacheInv (s : ProcState) (h : cacheInv s) :
    cacheInv (get_story_model s).2 := by
  rcases hc : s.cachedModel with _ | m
  · exact ⟨by simp [get_story_model, hc, h.2 hc], by simp [get_story_model, hc]⟩
  · simpa [get_story_model, hc] using h

theorem gen_cacheInv (env : Env) (cfg : Bool) (s : ProcState) (b : Bytes)
    (lang : String) (h : cacheInv s) :
    cacheInv (generate_story_from_image env cfg s b lang).2 := by
  have hg := get_story_model_cacheInv s h
  have hc := gen_state_cache env cfg s b lang
  refine ⟨?_, ?_⟩
  · rw [hc.2]; exact hg.1
  · intro hnone
    rw [hc.2]
    exact hg.2 (by rw [← hc.1]; exact hnone)

theorem runRequests_cacheInv (env : Env) (cfg : Bool)
    (reqs : List (Bytes × String)) :
    ∀ s : ProcState, cacheInv s → cacheInv (runRequests env cfg s reqs) := by
  induction reqs with
  | nil => intro s h; simpa [runRequests] using h
  | cons p rest ih =>
      intro s h
      rcases p with ⟨b, l⟩
      simpa [runRequests] using ih _ (gen_cacheInv env cfg s b l h)

example : pyStrip "   " = "" := rfl

example : pyStrip "A lonely pixel dreamed of color." =
    "A lonely pixel dreamed of color." := rfl

example :
    (generate_story_from_image (envOk "  hi  ") true ProcState.init [0] "English").1 =
      Except.ok "hi" := rfl

example :
    (generate_story_from_image envNoDecode true ProcState.init [0] "English").1 =
      Except.error PyError.unidentifiedImage := rfl

example :
    (runRequests (envOk "x") true ProcState.init
      [([0], "English"), ([1], "Chinese")]).constructions = 1 := rfl

/-- C1 counterexample: with a transport stub answering the
whitespace-only text, generate_story_from_image returns a successful
empty string, not a generation failure, refuting the claim that an
empty or whitespace-only model response is treated as a
GenerationError. -/
theorem claim1_empty_counterexample :
    (generate_story_from_image (envOk "   ") true ProcState.init png1x1 "English").1 =
      Except.ok "" := rfl

/-- C1 (amended): for every supported language and valid image,
generate_story_from_image returns the whitespace-stripped model
response as its success value even when that value is empty: an empty
or whitespace-only model response is returned as a successful empty
string, not turned into a failure. -/
theorem claim1_strip_amended (env : Env) (cfg : Bool) (s : ProcState) (b : Bytes)
    (lang : String) (img : PILImg) (text : String)
    (hd : env.decode b = some img)
    (hr : ∀ c, env.respond cfg c = Except.ok text) :
    (generate_story_from_image env cfg s b lang).1 = Except.ok (pyStrip text) :=
  gen_result_ok env cfg s b lang img text hd (hr _)

/-- C1 witness: the amended theorem applied to a stub answering a
padded text and to one answering only whitespace. -/
theorem claim1_strip_amended_inst :
    (generate_story_from_image (envOk " a tale ") true ProcState.init png1x1 "Amharic").1 =
      Except.ok "a tale" ∧
    (generate_story_from_image (envOk " \n ") true ProcState.init png1x1 "Chinese").1 =
      Except.ok "" :=
  ⟨claim1_strip_amended (envOk " a tale ") true ProcState.init png1x1 "Amharic"
      ⟨png1x1⟩ " a tale " rfl (fun _ => rfl),
   claim1_strip_amended (envOk " \n ") true ProcState.init png1x1 "Chinese"
      ⟨png1x1⟩ " \n " rfl (fun _ => rfl)⟩

/-- C2 counterexample: with no credential configured,
generate_story_from_image still issues one transport call (not zero)
and propagates whatever the client library raises; it does not return
a ConfigurationError, which does not exist in the code. -/
theorem claim2_nocheck_counterexample :
    (generate_story_from_image envKeyless false ProcState.init png1x1 "English").2.calls.length = 1 ∧
    (generate_story_from_image envKeyless false ProcState.init png1x1 "English").1 =
      Except.error (PyError.genaiError "No API key configured") :=
  ⟨rfl, rfl⟩

/-- C2 (amended): generate_story_from_image itself performs no
credential check: even with genai unconfigured it issues exactly one
transport call whenever the image decodes.  The zero-network-calls
guarantee is provided only by the UI layer, whose dispatch guard never
reaches generate_story_from_image when the key is not truthy, leaving
the process state untouched. -/
theorem claim2_guard_amended (env : Env) (s : ProcState) (b : Bytes)
    (lang : String) (img : PILImg) (h : env.decode b = some img) :
    (generate_story_from_image env false s b lang).2.calls.length =
      s.calls.length + 1 ∧
    (∀ (key : Option String) (up : Option Bytes) (sl : String) (clicked : Bool),
      truthy key = false →
        uiGenerateSection env key s up sl clicked =
          Except.ok ⟨true, true, Rendered.placeholder, s⟩) := by
  constructor
  · rw [gen_calls_some env false s b lang img h]
    simp
  · intro key up sl clicked hk
    rcases up with _ | file <;> simp [uiGenerateSection, hk]

/-- C2 witness: the amended theorem at a keyless world. -/
theorem claim2_guard_amended_inst :
    (generate_story_from_image envKeyless false ProcState.init png1x1 "English").2.calls.length =
      ProcState.init.calls.length + 1 ∧
    uiGenerateSection envKeyless none ProcState.init (some png1x1) "English" true =
      Except.ok ⟨true, true, Rendered.placeholder, ProcState.init⟩ :=
  ⟨(claim2_guard_amended envKeyless ProcState.init png1x1 "English" ⟨png1x1⟩ rfl).1,
   (claim2_guard_amended envKeyless ProcState.init png1x1 "English" ⟨png1x1⟩ rfl).2
      none (some png1x1) "English" true rfl⟩

/-- C3 counterexample: the unsupported language value Klingon is not
rejected: generate_story_from_image interpolates it into the prompt,
issues the transport call and succeeds, refuting the claim that
unsupported languages yield a ValidationError before any network
call. -/
theorem claim3_nolangcheck_counterexample :
    (generate_story_from_image (envOk "A tale.") true ProcState.init png1x1 "Klingon").1 =
      Except.ok "A tale." ∧
    (generate_story_from_image (envOk "A tale.") true ProcState.init png1x1 "Klingon").2.calls =
      [⟨"gemini-1.5-flash", storyPrompt "Klingon", ⟨png1x1⟩, 120⟩] :=
  ⟨rfl, rfl⟩

/-- C3 (amended): generate_story_from_image applies no language
validation at all: for every language string, supported or not, the
value is interpolated verbatim into the prompt and the transport call
is attempted whenever the image decodes, and the invocation never
fails with the image-validation error; membership in the set
{English, Amharic, Chinese} is enforced only by the UI radio control,
whose options are lang_tabs. -/
theorem claim3_verbatim_amended (env : Env) (cfg : Bool) (s : ProcState)
    (b : Bytes) (lang : String) (img : PILImg) (h : env.decode b = some img) :
    (generate_story_from_image env cfg s b lang).2.calls =
      s.calls ++ [⟨(get_story_model s).1.name, promptHead ++ lang ++ promptTail, img, 120⟩] ∧
    (generate_story_from_image env cfg s b lang).1 ≠
      Except.error PyError.unidentifiedImage ∧
    lang_tabs = ["English", "Amharic", "Chinese"] := by
  refine ⟨?_, ?_, rfl⟩
  · rw [gen_calls_some env cfg s b lang img h, storyPrompt_eq]
  · rcases hr : env.respond cfg ⟨(get_story_model s).1.name, storyPrompt lang, img, 120⟩
      with cause | text
    · rw [gen_result_err env cfg s b lang img cause h hr]; simp
    · rw [gen_result_ok env cfg s b lang img text h hr]; simp

/-- C3 witness: the amended theorem at the unsupported value Klingon. -/
theorem claim3_verbatim_amended_inst :
    (generate_story_from_image (envRaise "down") true ProcState.init png1x1 "Klingon").2.calls =
      [⟨"gemini-1.5-flash", promptHead ++ "Klingon" ++ promptTail, ⟨png1x1⟩, 120⟩] ∧
    (generate_story_from_image (envRaise "down") true ProcState.init png1x1 "Klingon").1 ≠
      Except.error PyError.unidentifiedImage ∧
    lang_tabs = ["English", "Amharic", "Chinese"] :=
  claim3_verbatim_amended (envRaise "down") true ProcState.init png1x1 "Klingon"
    ⟨png1x1⟩ rfl

/-- C4: for every byte sequence that does not decode as a supported
raster image, generate_story_from_image fails with the typed
image-validation error (the raised PIL UnidentifiedImageError) and
issues no transport call: its call log is unchanged. -/
theorem claim4_undecodable_rejected (env : Env) (cfg : Bool) (s : ProcState)
    (b : Bytes) (lang : String) (h : env.decode b = none) :
    (generate_story_from_image env cfg s b lang).1 =
      Except.error PyError.unidentifiedImage ∧
    (generate_story_from_image env cfg s b lang).2.calls = s.calls := by
  unfold generate_story_from_image
  simp [h, get_story_model_state_calls]

/-- C4 witness: the theorem at a world in which no bytes decode. -/
theorem claim4_undecodable_rejected_inst :
    (generate_story_from_image envNoDecode true ProcState.init [0, 1, 2] "English").1 =
      Except.error PyError.unidentifiedImage ∧
    (generate_story_from_image envNoDecode true ProcState.init [0, 1, 2] "English").2.calls =
      ProcState.init.calls :=
  claim4_undecodable_rejected envNoDecode true ProcState.init [0, 1, 2] "English" rfl

/-- C5 counterexample: an invocation with undecodable image bytes
issues zero transport calls, refuting the claim that every invocation
of generate_story issues exactly one call to the external model. -/
theorem claim5_single_call_counterexample :
    (generate_story_from_image envNoDecode true ProcState.init png1x1 "English").2.calls.length = 0 :=
  rfl

/-- C5 (amended): every invocation whose image bytes decode issues
exactly one transport call, carrying the instruction text and the
image as combined input with a timeout of 120 seconds; on a transport
error the invocation fails with the typed error carrying the
underlying cause, and even then exactly the one call was issued, so
there is no automatic retry.  An invocation with undecodable bytes
issues zero calls. -/
theorem claim5_single_call_amended (env : Env) (cfg : Bool) (s : ProcState)
    (b : Bytes) (lang : String) (img : PILImg) (h : env.decode b = some img) :
    (generate_story_from_image env cfg s b lang).2.calls =
      s.calls ++ [⟨(get_story_model s).1.name, storyPrompt lang, img, 120⟩] ∧
    (∀ cause,
      env.respond cfg ⟨(get_story_model s).1.name, storyPrompt lang, img, 120⟩ =
        Except.error cause →
      (generate_story_from_image env cfg s b lang).1 =
        Except.error (PyError.genaiError cause)) :=
  ⟨gen_calls_some env cfg s b lang img h,
   fun cause hr => gen_result_err env cfg s b lang img cause h hr⟩

/-- C5 witness: the amended theorem at a timing-out transport. -/
theorem claim5_single_call_amended_inst :
    (generate_story_from_image (envRaise "deadline of 120 s exceeded") true
        ProcState.init png1x1 "English").2.calls =
      [⟨"gemini-1.5-flash", storyPrompt "English", ⟨png1x1⟩, 120⟩] ∧
    (generate_story_from_image (envRaise "deadline of 120 s exceeded") true
        ProcState.init png1x1 "English").1 =
      Except.error (PyError.genaiError "deadline of 120 s exceeded") := by
  have h := claim5_single_call_amended (envRaise "deadline of 120 s exceeded") true
    ProcState.init png1x1 "English" ⟨png1x1⟩ rfl
  exact ⟨h.1, h.2 "deadline of 120 s exceeded" rfl⟩

/-- C6: across any sequence of sequential calls started from a fresh
process, the model handle is constructed at most once (lazy,
idempotent initialization of the cache_resource memo), and whenever
the memo already holds a handle, get_story_model returns that very
handle and leaves the state untouched, so every subsequent call reuses
the same memoized handle for the lifetime of the process. -/
theorem claim6_handle_cached_once (env : Env) (cfg : Bool)
    (reqs : List (Bytes × String)) :
    (runRequests env cfg ProcState.init reqs).constructions ≤ 1 ∧
    (∀ (s : ProcState) (m : GenerativeModel),
      s.cachedModel = some m → get_story_model s = (m, s)) :=
  ⟨(runRequests_cacheInv env cfg reqs ProcState.init ⟨Nat.zero_le 1, fun _ => rfl⟩).1,
   fun s m h => get_story_model_hit s m h⟩

/-- C6 witness: two sequential calls construct the handle at most
once, and a state already holding the handle is left untouched. -/
theorem claim6_handle_cached_once_inst :
    (runRequests (envOk "A story.") true ProcState.init
      [(png1x1, "English"), ([1], "Amharic")]).constructions ≤ 1 ∧
    get_story_model ⟨some ⟨"gemini-1.5-flash"⟩, 1, []⟩ =
      (⟨"gemini-1.5-flash"⟩, ⟨some ⟨"gemini-1.5-flash"⟩, 1, []⟩) :=
  ⟨(claim6_handle_cached_once (envOk "A story.") true
      [(png1x1, "English"), ([1], "Amharic")]).1,
   (claim6_handle_cached_once (envOk "A story.") true []).2
      ⟨some ⟨"gemini-1.5-flash"⟩, 1, []⟩ ⟨"gemini-1.5-flash"⟩ rfl⟩

/-- C7: for every request whose image decodes, the one transport call
carries exactly the fixed-template instruction storyPrompt for the
requested language; instantiated at the three supported languages the
template reads in full as stated: imaginative storyteller, a short,
vivid narrative of about 3–5 paragraphs, written entirely in the
requested language, no description of the task. -/
theorem claim7_fixed_template (env : Env) (cfg : Bool) (s : ProcState)
    (b : Bytes) (lang : String) (img : PILImg) (h : env.decode b = some img) :
    (generate_story_from_image env cfg s b lang).2.calls =
      s.calls ++ [⟨(get_story_model s).1.name, storyPrompt lang, img, 120⟩] ∧
    storyPrompt "English" =
      "You are an imaginative storyteller. Look at the image and write a short, vivid narrative (about 3–5 paragraphs). Write the story entirely in English. Do not describe the task, only tell the story." ∧
    storyPrompt "Amharic" =
      "You are an imaginative storyteller. Look at the image and write a short, vivid narrative (about 3–5 paragraphs). Write the story entirely in Amharic. Do not describe the task, only tell the story." ∧
    storyPrompt "Chinese" =
      "You are an imaginative storyteller. Look at the image and write a short, vivid narrative (about 3–5 paragraphs). Write the story entirely in Chinese. Do not describe the task, only tell the story." :=
  ⟨gen_calls_some env cfg s b lang img h, rfl, rfl, rfl⟩

/-- C7 witness: the theorem at a concrete request in Amharic. -/
theorem claim7_fixed_template_inst :
    (generate_story_from_image (envOk "Once.") true ProcState.init png1x1 "Amharic").2.calls =
      [⟨"gemini-1.5-flash", storyPrompt "Amharic", ⟨png1x1⟩, 120⟩] ∧
    storyPrompt "English" =
      "You are an imaginative storyteller. Look at the image and write a short, vivid narrative (about 3–5 paragraphs). Write the story entirely in English. Do not describe the task, only tell the story." ∧
    storyPrompt "Amharic" =
      "You are an imaginative storyteller. Look at the image and write a short, vivid narrative (about 3–5 paragraphs). Write the story entirely in Amharic. Do not describe the task, only tell the story." ∧
    storyPrompt "Chinese" =
      "You are an imaginative storyteller. Look at the image and write a short, vivid narrative (about 3–5 paragraphs). Write the story entirely in Chinese. Do not describe the task, only tell the story." :=
  claim7_fixed_template (envOk "Once.") true ProcState.init png1x1 "Amharic"
    ⟨png1x1⟩ rfl

/-- C8: on success generate_story_from_image returns the model text
with leading and trailing whitespace removed; in particular, given a
valid 1 by 1 PNG and language English with a transport stub answering
the fixed text, the result is exactly that text after the strip. -/
theorem claim8_trimmed_success (env : Env) (cfg : Bool) (s : ProcState)
    (b : Bytes) (lang : String) (img : PILImg) (text : String)
    (hd : env.decode b = some img)
    (hr : ∀ c, env.respond cfg c = Except.ok text) :
    (generate_story_from_image env cfg s b lang).1 = Except.ok (pyStrip text) ∧
    (generate_story_from_image (envOk "A lonely pixel dreamed of color.") true
        ProcState.init png1x1 "English").1 =
      Except.ok "A lonely pixel dreamed of color." :=
  ⟨gen_result_ok env cfg s b lang img text hd (hr _), rfl⟩

/-- C8 witness: the theorem at the end-to-end scenario stub. -/
theorem claim8_trimmed_success_inst :
    (generate_story_from_image (envOk "A lonely pixel dreamed of color.") true
        ProcState.init png1x1 "English").1 =
      Except.ok "A lonely pixel dreamed of color." :=
  (claim8_trimmed_success (envOk "A lonely pixel dreamed of color.") true
    ProcState.init png1x1 "English" ⟨png1x1⟩ "A lonely pixel dreamed of color."
    rfl (fun _ => rfl)).2

/-- C9: whenever no upload is present or the credential is not truthy,
the generate section is inert: it renders the placeholder, leaves the
process state (and hence the transport log) untouched, and its button
is disabled; and a missing credential always shows the warning. -/
theorem claim9_ui_guard (env : Env) (key : Option String) (s : ProcState)
    (up : Option Bytes) (lang : String) (clicked : Bool)
    (h : up = none ∨ truthy key = false) :
    uiGenerateSection env key s up lang clicked =
      Except.ok ⟨up.isNone || !(truthy key), !(truthy key), Rendered.placeholder, s⟩ ∧
    (key = none → (!(truthy key)) = true) := by
  refine ⟨?_, fun hk => by simp [hk, truthy]⟩
  rcases h with h | h
  · subst h
    rcases hck : clicked && truthy key with _ | _ <;> simp [uiGenerateSection, hck]
  · simp [uiGenerateSection, h]

/-- C9 witness: the theorem with an upload present but no key, and
with a key present but no upload. -/
theorem claim9_ui_guard_inst :
    uiGenerateSection (envOk "A story.") none ProcState.init (some png1x1) "English" true =
      Except.ok ⟨true, true, Rendered.placeholder, ProcState.init⟩ ∧
    uiGenerateSection (envOk "A story.") (some "k") ProcState.init none "English" true =
      Except.ok ⟨true, false, Rendered.placeholder, ProcState.init⟩ :=
  ⟨(claim9_ui_guard (envOk "A story.") none ProcState.init (some png1x1) "English" true
      (Or.inr rfl)).1,
   (claim9_ui_guard (envOk "A story.") (some "k") ProcState.init none "English" true
      (Or.inl rfl)).1⟩

/-- C10: the instruction sent to the model is a deterministic function
of the language alone: any two invocations with the same language, in
arbitrary worlds, with arbitrary configuration, states and image
bytes, append transport calls whose prompt is the same string
promptHead ++ language ++ promptTail, the language interpolated
verbatim between two fixed texts with no sanitization and no
membership check. -/
theorem claim10_prompt_language_only (env1 env2 : Env) (cfg1 cfg2 : Bool)
    (s1 s2 : ProcState) (b1 b2 : Bytes) (lang : String) (img1 img2 : PILImg)
    (h1 : env1.decode b1 = some img1) (h2 : env2.decode b2 = some img2) :
    promptsOf (generate_story_from_image env1 cfg1 s1 b1 lang).2 =
      promptsOf s1 ++ [promptHead ++ lang ++ promptTail] ∧
    promptsOf (generate_story_from_image env2 cfg2 s2 b2 lang).2 =
      promptsOf s2 ++ [promptHead ++ lang ++ promptTail] := by
  constructor <;>
    [rw [promptsOf, gen_calls_some env1 cfg1 s1 b1 lang img1 h1];
     rw [promptsOf, gen_calls_some env2 cfg2 s2 b2 lang img2 h2]] <;>
    simp [promptsOf, storyPrompt_eq]

/-- C10 witness: two invocations in different worlds, with different
bytes and different configuration, send the identical prompt. -/
theorem claim10_prompt_language_only_inst :
    promptsOf (generate_story_from_image (envOk "s") true ProcState.init [1, 2] "Chinese").2 =
      [promptHead ++ "Chinese" ++ promptTail] ∧
    promptsOf (generate_story_from_image (envRaise "down") false ProcState.init [9] "Chinese").2 =
      [promptHead ++ "Chinese" ++ promptTail] :=
  claim10_prompt_language_only (envOk "s") (envRaise "down") true false
    ProcState.init ProcState.init [1, 2] [9] "Chinese" ⟨[1, 2]⟩ ⟨[9]⟩ rfl rfl
